import Mathlib

/-!
Verification of the credential cache and assumption orchestrator of
`docker-ec2-metadata` (`credentials.go`) against its design specification.

The Go source is shallowly embedded: machine time (`time.Time`,
`time.Duration`) is modelled as integer nanosecond counts, the Go map as an
association list with the two operations the source uses (lookup and store),
and the external collaborators (the container service and the Security
Token Service) as explicit parameters.  `time.Now()` is passed in as an
explicit `now` argument.  Fallible operations return `Except`; the
out-of-bounds slice in `generateSessionName` (a Go panic) is modelled by
`Option`, with `none` standing for the panic.
-/

/-- Go `t.After(u)`: `t` is strictly after `u`. -/
def timeAfter (t u : Int) : Bool := u < t

/-- Go `t.Add(d)`. -/
def timeAdd (t : Int) (d : Int) : Int := t + d

/-- Go `time.Minute` in nanoseconds. -/
def timeMinute : Int := 60000000000

/-- Modelled from the spec: the Role Identifier type (Go `RoleArn`, whose
defining file `role_arn.go` is not among the sources; only its callers in
`credentials.go` are).  Per the spec it is an opaque reference carrying a
canonical string form: two Role Identifiers are equal iff their canonical
strings match, and "empty" means no role was specified. -/
structure RoleArn where
  arn : String
deriving DecidableEq, Repr

/-- Modelled from the spec: Go `RoleArn.Equals` — equality of canonical
string forms. -/
def RoleArn.equals (a b : RoleArn) : Bool := a.arn == b.arn

/-- Modelled from the spec: Go `RoleArn.Empty` — no role was specified. -/
def RoleArn.emptyRole (a : RoleArn) : Bool := a.arn == ""

/-- Modelled from the spec: Go `RoleArn.String` — the canonical string. -/
def RoleArn.canonicalString (a : RoleArn) : String := a.arn

/-- Modelled from the spec: the Container Identity shape (Go
`ContainerInfo`, defined outside the given sources): a unique id, a
declared Role Identifier (possibly empty) and a declared policy document
(possibly the empty string). -/
structure ContainerInfo where
  id : String
  iamRole : RoleArn
  iamPolicy : String
deriving DecidableEq, Repr

/-- Go `Credentials`: a temporary credential set. -/
structure Credentials where
  accessKey : String
  expiration : Int
  generatedAt : Int
  roleArn : RoleArn
  secretKey : String
  token : String
deriving DecidableEq, Repr

/-- Go `Credentials.ExpiredAt`: `return at.After(self.Expiration)`. -/
def Credentials.expiredAt (self : Credentials) (t : Int) : Bool :=
  timeAfter t self.expiration

/-- Go `Credentials.ExpiresIn`:
`return self.ExpiredAt(time.Now().Add(-d))`, with `time.Now()` passed
explicitly as `now`. -/
def Credentials.expiresIn (self : Credentials) (now : Int) (d : Int) : Bool :=
  self.expiredAt (timeAdd now (-d))

/-- Go `ContainerCredentials`: a cached entry pairing the container
identity snapshot with the credential set issued for it. -/
structure ContainerCredentials where
  containerInfo : ContainerInfo
  credentials : Credentials
deriving DecidableEq, Repr

/-- Go `ContainerCredentials.IsValid`: role identifiers equal, container id
equal, and the credential set does not satisfy `ExpiresIn(5*time.Minute)`. -/
def ContainerCredentials.isValid (self : ContainerCredentials) (now : Int)
    (container : ContainerInfo) : Bool :=
  self.containerInfo.iamRole.equals container.iamRole &&
  self.containerInfo.id == container.id &&
  !(self.credentials.expiresIn now (5 * timeMinute))

/-- Go `maxSessionNameLen`. -/
def maxSessionNameLen : Nat := 32

/-- The character class of Go regexp `[\w+=,.@-]` (`\w` is
`[0-9A-Za-z_]`); `invalidSessionNameRegexp` matches its complement. -/
def validSessionNameChar (c : Char) : Bool :=
  c.isAlphanum || c == '_' || c == '+' || c == '=' || c == ',' || c == '.' ||
  c == '@' || c == '-'

/-- Go `invalidSessionNameRegexp.ReplaceAllString(s, "_")`: every character
matched by `[^\w+=,.@-]` is replaced by an underscore.  The replacement is
per character, so it preserves length, and its output is all ASCII, so Go
byte indices coincide with character indices on the result. -/
def sanitizeSessionName (s : String) : String :=
  String.mk (s.data.map (fun c => if validSessionNameChar c then c else '_'))

/-- Go `generateSessionName`: format `platform-containerId`, sanitize, then
slice `[0:maxSessionNameLen]`.  The Go slice panics when the sanitized
string is shorter than `maxSessionNameLen`; `none` models that panic. -/
def generateSessionName (platform containerId : String) : Option String :=
  let sessionName := platform ++ "-" ++ containerId
  let sanitized := sanitizeSessionName sessionName
  if sanitized.length < maxSessionNameLen then
    none
  else
    some (String.mk (sanitized.data.take maxSessionNameLen))

/-- The fields of Go `sts.AssumeRoleInput` that `AssumeRole` fills in. -/
structure AssumeRoleInput where
  durationSeconds : Int
  policy : Option String
  roleArn : String
  roleSessionName : String
deriving DecidableEq, Repr

/-- The fields of the STS response that Go `AssumeRole` reads back. -/
structure STSResponse where
  accessKeyId : String
  secretAccessKey : String
  sessionToken : String
  expiration : Int
deriving DecidableEq, Repr

/-- The request Go `CredentialsProvider.AssumeRole` builds: a fixed
one-hour duration, the policy pointer left nil when the policy string is
empty (`if len(iamPolicy) > 0`), the role identifier's canonical string and
the session name. -/
def assumeRoleRequest (roleArn : RoleArn) (iamPolicy sessionName : String) :
    AssumeRoleInput :=
  { durationSeconds := 3600
    policy := if iamPolicy.length > 0 then some iamPolicy else none
    roleArn := roleArn.canonicalString
    roleSessionName := sessionName }

/-- Go `CredentialsProvider.AssumeRole`, with the remote STS call passed in
as `sts` and `time.Now()` as `now`.  On success the credential set is built
from the response, with `GeneratedAt` set to now; the `RoleArn` field is
left at its zero value, exactly as in the Go composite literal. -/
def assumeRole (sts : AssumeRoleInput → Except String STSResponse)
    (now : Int) (roleArn : RoleArn) (iamPolicy sessionName : String) :
    Except String Credentials :=
  match sts (assumeRoleRequest roleArn iamPolicy sessionName) with
  | .error e => .error e
  | .ok resp =>
      .ok { accessKey := resp.accessKeyId
            secretKey := resp.secretAccessKey
            token := resp.sessionToken
            expiration := resp.expiration
            generatedAt := now
            roleArn := ⟨""⟩ }

/-- Lookup in the Go map `containerCredentials` (`m[k]` with the
comma-ok form). -/
def mapLookup (m : List (String × ContainerCredentials)) (k : String) :
    Option ContainerCredentials :=
  match m with
  | [] => none
  | (k0, v) :: rest => if k = k0 then some v else mapLookup rest k

/-- Store into the Go map (`m[k] = v`): overwrite the binding for `k` if
present, else append it. -/
def mapStore (m : List (String × ContainerCredentials)) (k : String)
    (v : ContainerCredentials) : List (String × ContainerCredentials) :=
  match m with
  | [] => [(k, v)]
  | (k0, v0) :: rest =>
      if k = k0 then (k0, v) :: rest else (k0, v0) :: mapStore rest k v

/-- Go `CredentialsProvider` state: the configured defaults and the entry
map.  The collaborator handles (`container`, `awsSts`) are modelled as
explicit function arguments of the operations, and the mutex is outside
the functional model. -/
structure CredentialsProvider where
  defaultIamRoleArn : RoleArn
  defaultIamPolicy : String
  containerCredentials : List (String × ContainerCredentials)
deriving DecidableEq, Repr

/-- The effective role of the refresh path (lines 87-91 of
`credentials.go`): the container's declared role, replaced by the
configured default when it is empty. -/
def effectiveRole (defaultIamRoleArn : RoleArn) (container : ContainerInfo) :
    RoleArn :=
  if container.iamRole.emptyRole then defaultIamRoleArn else container.iamRole

/-- The effective policy of the refresh path (lines 87-96 of
`credentials.go`): the declared policy, replaced by the configured default
exactly when the declared role is empty and the declared policy has
length zero. -/
def effectivePolicy (defaultIamPolicy : String) (container : ContainerInfo) :
    String :=
  if container.iamRole.emptyRole && container.iamPolicy.length == 0 then
    defaultIamPolicy
  else
    container.iamPolicy

/-- The refresh path of Go `CredentialsForIP` (lines 86-106): determine the
effective role and policy, derive the session name, call `AssumeRole`, and
on success store the new entry.  The result carries the updated provider
state and the list of STS requests issued (so the number of assumption
calls is observable); `none` models the `generateSessionName` panic. -/
def refreshCredentials (sts : AssumeRoleInput → Except String STSResponse)
    (typeName : String) (now : Int) (self : CredentialsProvider)
    (containerIP : String) (container : ContainerInfo) :
    Option (Except String Credentials × CredentialsProvider × List AssumeRoleInput) :=
  let roleArn := effectiveRole self.defaultIamRoleArn container
  let iamPolicy := effectivePolicy self.defaultIamPolicy container
  match generateSessionName typeName container.id with
  | none => none
  | some sessionName =>
      let req := assumeRoleRequest roleArn iamPolicy sessionName
      match assumeRole sts now roleArn iamPolicy sessionName with
      | .error e => some (.error e, self, [req])
      | .ok role =>
          let newEntry : ContainerCredentials := ⟨container, role⟩
          some (.ok role,
                { self with
                  containerCredentials :=
                    mapStore self.containerCredentials containerIP newEntry },
                [req])

/-- Go `CredentialsProvider.CredentialsForIP`.  The outcome of the external
lookup `self.container.ContainerForIP(containerIP)` is passed in as
`resolveResult`, the platform tag `self.container.TypeName()` as
`typeName`, the STS call as `sts` and `time.Now()` as `now`.  Returns the
call's result, the provider state after the call, and the list of STS
requests issued; `none` models the `generateSessionName` panic. -/
def credentialsForIP (sts : AssumeRoleInput → Except String STSResponse)
    (resolveResult : Except String ContainerInfo) (typeName : String)
    (now : Int) (self : CredentialsProvider) (containerIP : String) :
    Option (Except String Credentials × CredentialsProvider × List AssumeRoleInput) :=
  match resolveResult with
  | .error e => some (.error e, self, [])
  | .ok container =>
      match mapLookup self.containerCredentials containerIP with
      | some oldCredentials =>
          if oldCredentials.isValid now container then
            some (.ok oldCredentials.credentials, self, [])
          else
            refreshCredentials sts typeName now self containerIP container
      | none => refreshCredentials sts typeName now self containerIP container

/-! ## Helper lemmas -/

theorem mapLookup_mapStore_ne (m : List (String × ContainerCredentials))
    (k b : String) (v : ContainerCredentials) (h : b ≠ k) :
    mapLookup (mapStore m k v) b = mapLookup m b := by
  induction m with
  | nil => simp [mapStore, mapLookup, h]
  | cons hd tl ih =>
      obtain ⟨k0, v0⟩ := hd
      by_cases hk : k = k0
      · subst hk
        simp [mapStore, mapLookup, h]
      · simp [mapStore, mapLookup, hk, ih]

theorem sanitize_chars_valid (t : String) :
    ∀ x ∈ (sanitizeSessionName t).data, validSessionNameChar x = true := by
  intro x hx
  simp only [sanitizeSessionName, String.data] at hx
  obtain ⟨c, _, hc⟩ := List.mem_map.mp hx
  by_cases h : validSessionNameChar c
  · rw [if_pos h] at hc
    rw [← hc]
    exact h
  · rw [if_neg h] at hc
    rw [← hc]
    decide

theorem refresh_issues_one_request
    (sts : AssumeRoleInput → Except String STSResponse) (typeName : String)
    (now : Int) (self : CredentialsProvider) (containerIP : String)
    (container : ContainerInfo)
    (out : Except String Credentials × CredentialsProvider × List AssumeRoleInput)
    (h : refreshCredentials sts typeName now self containerIP container = some out) :
    ∃ req, out.2.2 = [req] := by
  unfold refreshCredentials at h
  cases hg : generateSessionName typeName container.id with
  | none => simp [hg] at h
  | some sn =>
      simp only [hg] at h
      cases hs : assumeRole sts now (effectiveRole self.defaultIamRoleArn container)
          (effectivePolicy self.defaultIamPolicy container) sn with
      | error e =>
          simp only [hs] at h
          obtain rfl := Option.some_inj.mp h
          exact ⟨_, rfl⟩
      | ok role =>
          simp only [hs] at h
          obtain rfl := Option.some_inj.mp h
          exact ⟨_, rfl⟩

theorem refresh_frame
    (sts : AssumeRoleInput → Except String STSResponse) (typeName : String)
    (now : Int) (self : CredentialsProvider) (containerIP : String)
    (container : ContainerInfo) (res : Except String Credentials)
    (post : CredentialsProvider) (reqs : List AssumeRoleInput)
    (h : refreshCredentials sts typeName now self containerIP container
          = some (res, post, reqs)) :
    post.defaultIamRoleArn = self.defaultIamRoleArn ∧
    post.defaultIamPolicy = self.defaultIamPolicy ∧
    ∀ b, b ≠ containerIP →
      mapLookup post.containerCredentials b
        = mapLookup self.containerCredentials b := by
  unfold refreshCredentials at h
  cases hg : generateSessionName typeName container.id with
  | none => simp [hg] at h
  | some sn =>
      simp only [hg] at h
      cases hs : assumeRole sts now (effectiveRole self.defaultIamRoleArn container)
          (effectivePolicy self.defaultIamPolicy container) sn with
      | error e =>
          simp only [hs, Option.some_inj, Prod.mk.injEq] at h
          obtain ⟨-, hpost, -⟩ := h
          subst hpost
          exact ⟨rfl, rfl, fun b hb => rfl⟩
      | ok role =>
          simp only [hs, Option.some_inj, Prod.mk.injEq] at h
          obtain ⟨-, hpost, -⟩ := h
          subst hpost
          exact ⟨rfl, rfl, fun b hb => mapLookup_mapStore_ne _ _ _ _ hb⟩

/-! ## Claim theorems -/

/-- Claim C1 (divergence of the code from the claim): the claim states that
`ExpiresIn(d)` is true iff `now + d` is after the expiration timestamp, but
the code computes `ExpiredAt(time.Now().Add(-d))`, i.e. it tests whether
`now - d` is after the expiration.  First conjunct: the exact
characterisation of what the code computes.  Second and third conjuncts:
the failing input — a set expiring one nanosecond from now (`now = 0`,
`expiration = 1`) with `d` the five-minute safety margin; the code returns
`false` although `now + d` is after the expiration, so the claimed
predicate demands `true`. -/
theorem expiresIn_tests_now_minus_d :
    (∀ (c : Credentials) (now d : Int),
      c.expiresIn now d = decide (c.expiration < now - d)) ∧
    ({ accessKey := "AK", expiration := 1, generatedAt := 0, roleArn := ⟨""⟩,
       secretKey := "SK", token := "TK" } : Credentials).expiresIn 0
        (5 * timeMinute) = false ∧
    timeAfter (timeAdd 0 (5 * timeMinute)) 1 = true := by
  refine ⟨fun c now d => ?_, by decide, by decide⟩
  simp only [Credentials.expiresIn, Credentials.expiredAt, timeAfter, timeAdd,
    Int.sub_eq_add_neg]

/-- Claim C9: `ExpiredAt(t)` is true iff `t` is strictly after the
expiration timestamp; at the expiration instant itself it is false, and for
any positive `ε` it is true at `expiration + ε` and false at
`expiration - ε`. -/
theorem expiredAt_iff_strictly_after (c : Credentials) (t : Int)
    (ε : Int) (hε : 0 < ε) :
    (c.expiredAt t = true ↔ c.expiration < t) ∧
    c.expiredAt (c.expiration + ε) = true ∧
    c.expiredAt (c.expiration - ε) = false ∧
    c.expiredAt c.expiration = false := by
  refine ⟨?_, ?_, ?_, ?_⟩
  · show decide (c.expiration < t) = true ↔ c.expiration < t
    exact decide_eq_true_iff
  · show decide (c.expiration < c.expiration + ε) = true
    exact decide_eq_true (by omega)
  · show decide (c.expiration < c.expiration - ε) = false
    exact decide_eq_false (by omega)
  · show decide (c.expiration < c.expiration) = false
    exact decide_eq_false (by omega)

/-- Closed instance of `expiredAt_iff_strictly_after` at a concrete
credential set with expiration 100, instant 101 and `ε = 1`. -/
theorem expiredAt_iff_strictly_after_witness :
    (0:Int) < 1 ∧
    ((({ accessKey := "AK", expiration := 100, generatedAt := 0,
         roleArn := ⟨""⟩, secretKey := "SK", token := "TK" } :
        Credentials).expiredAt 101 = true ↔ (100:Int) < 101) ∧
     ({ accessKey := "AK", expiration := 100, generatedAt := 0,
        roleArn := ⟨""⟩, secretKey := "SK", token := "TK" } :
       Credentials).expiredAt (100 + 1) = true ∧
     ({ accessKey := "AK", expiration := 100, generatedAt := 0,
        roleArn := ⟨""⟩, secretKey := "SK", token := "TK" } :
       Credentials).expiredAt (100 - 1) = false ∧
     ({ accessKey := "AK", expiration := 100, generatedAt := 0,
        roleArn := ⟨""⟩, secretKey := "SK", token := "TK" } :
       Credentials).expiredAt 100 = false) :=
  ⟨by decide, expiredAt_iff_strictly_after _ 101 1 (by decide)⟩

/-- Claim C5: `generateSessionName` is not total — whenever the sanitized
concatenation is shorter than 32 characters the fixed-offset slice
`[0:32]` is out of bounds (modelled by `none`), and that branch is
reachable, e.g. at platform `a`, container id `b`. -/
theorem generateSessionName_not_total :
    (∀ p c, (sanitizeSessionName (p ++ "-" ++ c)).length < maxSessionNameLen →
      generateSessionName p c = none) ∧
    generateSessionName "a" "b" = none := by
  constructor
  · intro p c h
    simp [generateSessionName, h]
  · rfl

/-- Closed instance of `generateSessionName_not_total`: the sanitized
concatenation of `a` and `b` has length 3 < 32 and the slice panics. -/
theorem generateSessionName_not_total_witness :
    (sanitizeSessionName ("a" ++ "-" ++ "b")).length < maxSessionNameLen ∧
    generateSessionName "a" "b" = none :=
  ⟨by decide, generateSessionName_not_total.1 "a" "b" (by decide)⟩

/-- Claim C6: whenever `generateSessionName` produces a session name, that
name is the sanitized concatenation `platform ++ "-" ++ containerId` (every
character outside `[A-Za-z0-9_+=,.@-]` replaced by an underscore)
truncated to the 32-character maximum, its length is at most 32, and it
contains only characters of the class `[A-Za-z0-9_+=,.@-]`. -/
theorem generateSessionName_sound (p c s : String)
    (h : generateSessionName p c = some s) :
    s = String.mk ((sanitizeSessionName (p ++ "-" ++ c)).data.take
          maxSessionNameLen) ∧
    s.length ≤ maxSessionNameLen ∧
    s.data.all validSessionNameChar = true := by
  unfold generateSessionName at h
  by_cases hl : (sanitizeSessionName (p ++ "-" ++ c)).length < maxSessionNameLen
  · simp [hl] at h
  · simp only [hl, if_false] at h
    obtain rfl := Option.some_inj.mp h.symm
    refine ⟨rfl, ?_, ?_⟩
    · simp only [String.length, List.length_take]
      omega
    · rw [List.all_eq_true]
      intro x hx
      exact sanitize_chars_valid _ x (List.mem_of_mem_take hx)

/-- Closed instance of `generateSessionName_sound` at platform `docker`
and a 32-character hexadecimal container id. -/
theorem generateSessionName_sound_witness :
    generateSessionName "docker" "0123456789abcdef0123456789abcdef"
      = some "docker-0123456789abcdef012345678" ∧
    ("docker-0123456789abcdef012345678" : String)
      = String.mk ((sanitizeSessionName
          ("docker" ++ "-" ++ "0123456789abcdef0123456789abcdef")).data.take
          maxSessionNameLen) ∧
    ("docker-0123456789abcdef012345678" : String).length ≤ maxSessionNameLen ∧
    ("docker-0123456789abcdef012345678" : String).data.all
      validSessionNameChar = true :=
  ⟨by decide,
   generateSessionName_sound "docker" "0123456789abcdef0123456789abcdef"
     "docker-0123456789abcdef012345678" (by decide)⟩

/-- Claim C7: the request `AssumeRole` sends to the Security Token Service
(`assumeRoleRequest` is exactly the `sts.AssumeRoleInput` literal built at
the call site in `AssumeRole`, see `assumeRole`) has the fixed session
duration 3600 seconds; its policy field is absent exactly when the
effective policy string is empty, and carries the policy verbatim
otherwise; and it carries the role identifier's canonical string and the
session name. -/
theorem assumeRoleRequest_fields (roleArn : RoleArn)
    (iamPolicy sessionName : String) :
    (assumeRoleRequest roleArn iamPolicy sessionName).durationSeconds = 3600 ∧
    (assumeRoleRequest roleArn iamPolicy sessionName).policy
      = (if iamPolicy = "" then none else some iamPolicy) ∧
    (assumeRoleRequest roleArn iamPolicy sessionName).roleArn
      = roleArn.canonicalString ∧
    (assumeRoleRequest roleArn iamPolicy sessionName).roleSessionName
      = sessionName := by
  refine ⟨rfl, ?_, rfl, rfl⟩
  simp only [assumeRoleRequest]
  by_cases h : iamPolicy = ""
  · subst h
    simp
  · have hlen : iamPolicy.length > 0 := by
      cases iamPolicy with
      | mk l =>
          cases l with
          | nil => exact absurd rfl h
          | cons a t => simp [String.length]
    simp [h, hlen]

/-- Claim C3: precedence of the effective role and policy on a refresh
(`effectiveRole` and `effectivePolicy` are the values computed by lines
87-96 of `CredentialsForIP` and consumed by the refresh path,
`refreshCredentials`).  Case 1: empty declared role and empty declared
policy — both defaults are used.  Case 2: empty declared role but
non-empty declared policy — the default role is used but the container's
own policy is kept.  Case 3: non-empty declared role — the container's
role and its declared policy are used as-is. -/
theorem effective_role_policy_precedence (defaultRole : RoleArn)
    (defaultPolicy : String) (container : ContainerInfo) :
    (container.iamRole.emptyRole = true → container.iamPolicy = "" →
      effectiveRole defaultRole container = defaultRole ∧
      effectivePolicy defaultPolicy container = defaultPolicy) ∧
    (container.iamRole.emptyRole = true → container.iamPolicy ≠ "" →
      effectiveRole defaultRole container = defaultRole ∧
      effectivePolicy defaultPolicy container = container.iamPolicy) ∧
    (container.iamRole.emptyRole = false →
      effectiveRole defaultRole container = container.iamRole ∧
      effectivePolicy defaultPolicy container = container.iamPolicy) := by
  refine ⟨fun hr hp => ⟨?_, ?_⟩, fun hr hp => ⟨?_, ?_⟩, fun hr => ⟨?_, ?_⟩⟩
  · simp [effectiveRole, hr]
  · simp [effectivePolicy, hr, hp]
  · simp [effectiveRole, hr]
  · have hlen : container.iamPolicy.length ≠ 0 := by
      cases hq : container.iamPolicy with
      | mk l =>
          cases l with
          | nil => exact absurd hq hp
          | cons a t => simp [String.length]
    simp [effectivePolicy, hr, hlen]
  · simp [effectiveRole, hr]
  · simp [effectivePolicy, hr]

/-- Closed instance of `effective_role_policy_precedence` exercising the
override case: empty declared role, non-empty declared policy — the
default role but the container's own policy. -/
theorem effective_role_policy_precedence_witness :
    effectiveRole ⟨"arn-default"⟩ ⟨"cid", ⟨""⟩, "custom-policy"⟩
      = ⟨"arn-default"⟩ ∧
    effectivePolicy "default-policy" ⟨"cid", ⟨""⟩, "custom-policy"⟩
      = "custom-policy" :=
  (effective_role_policy_precedence ⟨"arn-default"⟩ "default-policy"
    ⟨"cid", ⟨""⟩, "custom-policy"⟩).2.1 (by decide) (by decide)

/-- Claim C4: failures are propagated unmodified and leave the cache
untouched.  First conjunct: when identity resolution fails with `e`,
`CredentialsForIP` returns exactly that error, the provider state is
exactly the pre-state, and no STS request is issued.  Second conjunct:
when the cached entry is absent or invalid (so a refresh is attempted),
the session name derivation succeeds, and the STS exchange fails with
`e`, the operation returns exactly that error and exactly the pre-state:
no partial entry is stored. -/
theorem failure_propagated_cache_untouched
    (sts : AssumeRoleInput → Except String STSResponse) (typeName : String)
    (now : Int) (self : CredentialsProvider) (ip : String) :
    (∀ e, credentialsForIP sts (.error e) typeName now self ip
        = some (.error e, self, [])) ∧
    (∀ (container : ContainerInfo) (e sn : String),
      (∀ old, mapLookup self.containerCredentials ip = some old →
        old.isValid now container = false) →
      generateSessionName typeName container.id = some sn →
      sts (assumeRoleRequest (effectiveRole self.defaultIamRoleArn container)
            (effectivePolicy self.defaultIamPolicy container) sn)
        = .error e →
      credentialsForIP sts (.ok container) typeName now self ip
        = some (.error e, self,
            [assumeRoleRequest
              (effectiveRole self.defaultIamRoleArn container)
              (effectivePolicy self.defaultIamPolicy container) sn])) := by
  constructor
  · intro e
    rfl
  · intro container e sn hinvalid hsn hsts
    have href : refreshCredentials sts typeName now self ip container
        = some (.error e, self,
            [assumeRoleRequest
              (effectiveRole self.defaultIamRoleArn container)
              (effectivePolicy self.defaultIamPolicy container) sn]) := by
      simp only [refreshCredentials, hsn, assumeRole, hsts]
    cases hl : mapLookup self.containerCredentials ip with
    | none => simp only [credentialsForIP, hl]; exact href
    | some old =>
        have hv := hinvalid old hl
        simp only [credentialsForIP, hl, hv, Bool.false_eq_true, if_false]
        exact href

/-- Closed instance of `failure_propagated_cache_untouched`: a failed
resolution and a failed assumption exchange, each leaving the (here
empty-map) provider state exactly as it was. -/
theorem failure_propagated_cache_untouched_witness :
    credentialsForIP (fun _ => .error "boom") (.error "resolve-fail")
      "docker" 0 ⟨⟨"arn-default"⟩, "", []⟩ "10.0.0.1"
      = some (.error "resolve-fail", ⟨⟨"arn-default"⟩, "", []⟩, []) ∧
    credentialsForIP (fun _ => .error "denied")
      (.ok ⟨"aaaaaaaaaaaaaaaaaaaaaaaaaaaaaaaa", ⟨""⟩, ""⟩) "docker" 0
      ⟨⟨"arn-default"⟩, "", []⟩ "10.0.0.1"
      = some (.error "denied", ⟨⟨"arn-default"⟩, "", []⟩,
          [assumeRoleRequest
            (effectiveRole ⟨"arn-default"⟩ ⟨"aaaaaaaaaaaaaaaaaaaaaaaaaaaaaaaa", ⟨""⟩, ""⟩)
            (effectivePolicy "" ⟨"aaaaaaaaaaaaaaaaaaaaaaaaaaaaaaaa", ⟨""⟩, ""⟩)
            "docker-aaaaaaaaaaaaaaaaaaaaaaaaa"]) :=
  ⟨(failure_propagated_cache_untouched (fun _ => .error "boom") "docker" 0
      ⟨⟨"arn-default"⟩, "", []⟩ "10.0.0.1").1 "resolve-fail",
   (failure_propagated_cache_untouched (fun _ => .error "denied") "docker" 0
      ⟨⟨"arn-default"⟩, "", []⟩ "10.0.0.1").2
     ⟨"aaaaaaaaaaaaaaaaaaaaaaaaaaaaaaaa", ⟨""⟩, ""⟩ "denied" "docker-aaaaaaaaaaaaaaaaaaaaaaaaa"
     (fun old h => Option.noConfusion h) (by decide) rfl⟩

/-- Claim C10: frame property of `CredentialsForIP` — whether the call
succeeds or fails, the configured default role and default policy are
never modified and every cache entry keyed by an address other than the
given one is unchanged; the only state the operation may change is the
single map entry for that address.  (The collaborator handles are plain
read-only arguments of the model and cannot be written at all.) -/
theorem credentialsForIP_frame
    (sts : AssumeRoleInput → Except String STSResponse)
    (resolveResult : Except String ContainerInfo) (typeName : String)
    (now : Int) (self : CredentialsProvider) (ip : String)
    (res : Except String Credentials) (post : CredentialsProvider)
    (reqs : List AssumeRoleInput)
    (h : credentialsForIP sts resolveResult typeName now self ip
          = some (res, post, reqs)) :
    post.defaultIamRoleArn = self.defaultIamRoleArn ∧
    post.defaultIamPolicy = self.defaultIamPolicy ∧
    ∀ b, b ≠ ip → mapLookup post.containerCredentials b
        = mapLookup self.containerCredentials b := by
  unfold credentialsForIP at h
  cases resolveResult with
  | error e =>
      simp only [Option.some_inj, Prod.mk.injEq] at h
      obtain ⟨-, hpost, -⟩ := h
      subst hpost
      exact ⟨rfl, rfl, fun b hb => rfl⟩
  | ok container =>
      cases hl : mapLookup self.containerCredentials ip with
      | none =>
          rw [hl] at h
          exact refresh_frame _ _ _ _ _ _ _ _ _ h
      | some old =>
          rw [hl] at h
          by_cases hv : old.isValid now container = true
          · simp only [hv, if_true, Option.some_inj, Prod.mk.injEq] at h
            obtain ⟨-, hpost, -⟩ := h
            subst hpost
            exact ⟨rfl, rfl, fun b hb => rfl⟩
          · simp only [hv, if_false] at h
            exact refresh_frame _ _ _ _ _ _ _ _ _ h

/-- Closed instance of `credentialsForIP_frame` on a successful refresh
for address 10.0.0.1: the pre-existing entry for 10.0.0.2 and the
configured defaults are untouched. -/
theorem credentialsForIP_frame_witness :
    (⟨⟨"arn-default"⟩, "",
        [("10.0.0.2", ⟨⟨"cid2", ⟨"arn-r"⟩, ""⟩,
            ⟨"AK2", 5, 0, ⟨""⟩, "SK2", "TK2"⟩⟩),
         ("10.0.0.1", ⟨⟨"aaaaaaaaaaaaaaaaaaaaaaaaaaaaaaaa", ⟨""⟩, ""⟩,
            ⟨"AK", 1000, 0, ⟨""⟩, "SK", "TK"⟩⟩)]⟩ :
      CredentialsProvider).defaultIamRoleArn = RoleArn.mk "arn-default" ∧
    (⟨⟨"arn-default"⟩, "",
        [("10.0.0.2", ⟨⟨"cid2", ⟨"arn-r"⟩, ""⟩,
            ⟨"AK2", 5, 0, ⟨""⟩, "SK2", "TK2"⟩⟩),
         ("10.0.0.1", ⟨⟨"aaaaaaaaaaaaaaaaaaaaaaaaaaaaaaaa", ⟨""⟩, ""⟩,
            ⟨"AK", 1000, 0, ⟨""⟩, "SK", "TK"⟩⟩)]⟩ :
      CredentialsProvider).defaultIamPolicy = "" ∧
    mapLookup
      [("10.0.0.2", ⟨⟨"cid2", ⟨"arn-r"⟩, ""⟩,
          ⟨"AK2", 5, 0, ⟨""⟩, "SK2", "TK2"⟩⟩),
       ("10.0.0.1", ⟨⟨"aaaaaaaaaaaaaaaaaaaaaaaaaaaaaaaa", ⟨""⟩, ""⟩,
          ⟨"AK", 1000, 0, ⟨""⟩, "SK", "TK"⟩⟩)] "10.0.0.2"
      = mapLookup
          [("10.0.0.2", ⟨⟨"cid2", ⟨"arn-r"⟩, ""⟩,
              ⟨"AK2", 5, 0, ⟨""⟩, "SK2", "TK2"⟩⟩)] "10.0.0.2" := by
  have hframe := credentialsForIP_frame
    (fun _ => .ok ⟨"AK", "SK", "TK", 1000⟩)
    (.ok ⟨"aaaaaaaaaaaaaaaaaaaaaaaaaaaaaaaa", ⟨""⟩, ""⟩) "docker" 0
    ⟨⟨"arn-default"⟩, "",
      [("10.0.0.2", ⟨⟨"cid2", ⟨"arn-r"⟩, ""⟩,
          ⟨"AK2", 5, 0, ⟨""⟩, "SK2", "TK2"⟩⟩)]⟩ "10.0.0.1"
    (.ok ⟨"AK", 1000, 0, ⟨""⟩, "SK", "TK"⟩)
    ⟨⟨"arn-default"⟩, "",
      [("10.0.0.2", ⟨⟨"cid2", ⟨"arn-r"⟩, ""⟩,
          ⟨"AK2", 5, 0, ⟨""⟩, "SK2", "TK2"⟩⟩),
       ("10.0.0.1", ⟨⟨"aaaaaaaaaaaaaaaaaaaaaaaaaaaaaaaa", ⟨""⟩, ""⟩,
          ⟨"AK", 1000, 0, ⟨""⟩, "SK", "TK"⟩⟩)]⟩
    [assumeRoleRequest ⟨"arn-default"⟩ "" "docker-aaaaaaaaaaaaaaaaaaaaaaaaa"]
    (by rfl)
  exact ⟨hframe.1, hframe.2.1, hframe.2.2 "10.0.0.2" (by decide)⟩

/-- Claim C2: a cached entry is reused — the call returns its credential
set, leaves the provider state untouched and issues no STS request —
exactly when the entry exists, its snapshot role identifier equals the
freshly resolved identity's role, its snapshot container id equals the
freshly resolved id, and its credential set does not trip the code's
five-minute safety-margin predicate `ExpiresIn(5*time.Minute)` (the
wall-clock direction of that predicate is settled separately under claim
C1).  Second conjunct: a stored entry whose role differs from the freshly
resolved role forces a fresh assumption call — the operation issues
exactly one STS request instead of reusing the cached set. -/
theorem cache_reuse_iff_valid
    (sts : AssumeRoleInput → Except String STSResponse) (typeName : String)
    (now : Int) (self : CredentialsProvider) (ip : String)
    (container : ContainerInfo) :
    ((∃ old, mapLookup self.containerCredentials ip = some old ∧
        credentialsForIP sts (.ok container) typeName now self ip
          = some (.ok old.credentials, self, []))
      ↔ (∃ old, mapLookup self.containerCredentials ip = some old ∧
          old.containerInfo.iamRole.equals container.iamRole = true ∧
          old.containerInfo.id = container.id ∧
          old.credentials.expiresIn now (5 * timeMinute) = false)) ∧
    (∀ old sn, mapLookup self.containerCredentials ip = some old →
      old.containerInfo.iamRole.equals container.iamRole = false →
      generateSessionName typeName container.id = some sn →
      (credentialsForIP sts (.ok container) typeName now self ip).map
          (fun out => out.2.2)
        = some [assumeRoleRequest
            (effectiveRole self.defaultIamRoleArn container)
            (effectivePolicy self.defaultIamPolicy container) sn]) := by
  constructor
  · constructor
    · rintro ⟨old, hl, hres⟩
      refine ⟨old, hl, ?_⟩
      by_cases hv : old.isValid now container = true
      · have hv2 := hv
        simp only [ContainerCredentials.isValid, Bool.and_eq_true,
          Bool.not_eq_eq_eq_not, Bool.not_true, beq_iff_eq] at hv2
        exact ⟨hv2.1.1, hv2.1.2, hv2.2⟩
      · simp only [credentialsForIP, hl, hv, if_false] at hres
        obtain ⟨req, hreq⟩ :=
          refresh_issues_one_request _ _ _ _ _ _ _ hres
        simp at hreq
    · rintro ⟨old, hl, h1, h2, h3⟩
      have hv : old.isValid now container = true := by
        simp only [ContainerCredentials.isValid, Bool.and_eq_true,
          Bool.not_eq_eq_eq_not, Bool.not_true, beq_iff_eq]
        exact ⟨⟨h1, h2⟩, h3⟩
      refine ⟨old, hl, ?_⟩
      simp only [credentialsForIP, hl, hv, if_true]
  · intro old sn hl hrole hsn
    have hv : old.isValid now container = false := by
      simp only [ContainerCredentials.isValid, hrole, Bool.false_and]
    simp only [credentialsForIP, hl, hv, Bool.false_eq_true, if_false,
      refreshCredentials, hsn]
    cases hs : assumeRole sts now (effectiveRole self.defaultIamRoleArn container)
        (effectivePolicy self.defaultIamPolicy container) sn with
    | error e => rfl
    | ok role => rfl

/-- Closed instance of the second conjunct of `cache_reuse_iff_valid`: a
stored entry with role `arn-r1` and a freshly resolved identity with role
`arn-r2` for the same address triggers exactly one assumption call. -/
theorem cache_reuse_iff_valid_witness :
    (credentialsForIP (fun _ => .error "denied")
        (.ok ⟨"aaaaaaaaaaaaaaaaaaaaaaaaaaaaaaaa", ⟨"arn-r2"⟩, ""⟩) "docker" 0
        ⟨⟨"arn-default"⟩, "",
          [("10.0.0.1", ⟨⟨"aaaaaaaaaaaaaaaaaaaaaaaaaaaaaaaa", ⟨"arn-r1"⟩, ""⟩,
              ⟨"AK1", 900000000000000, 0, ⟨""⟩, "SK1", "TK1"⟩⟩)]⟩
        "10.0.0.1").map (fun out => out.2.2)
      = some [assumeRoleRequest
          (effectiveRole ⟨"arn-default"⟩ ⟨"aaaaaaaaaaaaaaaaaaaaaaaaaaaaaaaa", ⟨"arn-r2"⟩, ""⟩)
          (effectivePolicy "" ⟨"aaaaaaaaaaaaaaaaaaaaaaaaaaaaaaaa", ⟨"arn-r2"⟩, ""⟩)
          "docker-aaaaaaaaaaaaaaaaaaaaaaaaa"] :=
  (cache_reuse_iff_valid (fun _ => .error "denied") "docker" 0
      ⟨⟨"arn-default"⟩, "",
        [("10.0.0.1", ⟨⟨"aaaaaaaaaaaaaaaaaaaaaaaaaaaaaaaa", ⟨"arn-r1"⟩, ""⟩,
            ⟨"AK1", 900000000000000, 0, ⟨""⟩, "SK1", "TK1"⟩⟩)]⟩
      "10.0.0.1" ⟨"aaaaaaaaaaaaaaaaaaaaaaaaaaaaaaaa", ⟨"arn-r2"⟩, ""⟩).2
    ⟨⟨"aaaaaaaaaaaaaaaaaaaaaaaaaaaaaaaa", ⟨"arn-r1"⟩, ""⟩, ⟨"AK1", 900000000000000, 0, ⟨""⟩, "SK1", "TK1"⟩⟩
    "docker-aaaaaaaaaaaaaaaaaaaaaaaaa" (by rfl) (by decide) (by rfl)
